import Mathlib

/-!
Shallow embedding of the flex-output table-definition code of osm2pgsql
(`src/flex-lua-table.cpp`) and of the libosmium file utilities
(`contrib/libosmium/osmium/util/file.hpp`), with theorems checking the
natural-language specification against it.

The Lua C API calls (`lua_getfield`, `lua_isstring`, ...) are embedded by
modelling the Lua value a definition passes to `define_table` as a Lean
structure holding exactly the fields the C++ code reads.  Exceptions become
an `Option String` error slot carried next to the (possibly partially
mutated) table state, so that the state left behind by a throwing call is
visible, as it is through the `std::vector` in the C++ code.
-/

namespace Osm2pgsql

/-- The subset of Lua scalar values that the table-definition code inspects
through `lua_type`, `lua_isstring`, `lua_isnil` and `lua_tostring`. -/
inductive LuaScalar where
  | nil
  | str (s : String)
  | boolean (b : Bool)
  | num (n : Int)
deriving DecidableEq, Repr

/-- `lua_isstring`: true for strings and for numbers (Lua coerces numbers
to strings). -/
def lua_isstring : LuaScalar → Bool
  | .str _ => true
  | .num _ => true
  | _ => false

/-- `lua_isnil`. -/
def lua_isnil : LuaScalar → Bool
  | .nil => true
  | _ => false

/-- `lua_tostring` on values where the C++ code calls it: strings are
returned as they are, numbers are formatted.  (On other values the C API
returns a null pointer; the code never dereferences one on a path this
file models, so those cases map to the empty string.) -/
def lua_tostring : LuaScalar → String
  | .str s => s
  | .num n => toString n
  | _ => ""

/-- Modelled from the spec: `luaX_get_table_string` from `lua-utils.cpp`
(not among the sources).  Reads a field of the table on the stack and
errors unless it holds a string (or a number, which Lua coerces). -/
def luaX_get_table_string (value : LuaScalar) (field desc : String) :
    Except String String :=
  match value with
  | .str s => .ok s
  | .num n => .ok (toString n)
  | _ => .error (desc ++ " must contain a string field '" ++ field ++ "'.")

/-- Modelled from the spec: the overload of `luaX_get_table_string` with a
default, returned when the field is absent (nil). -/
def luaX_get_table_string_opt (value : LuaScalar) (field desc dflt : String) :
    Except String String :=
  match value with
  | .nil => .ok dflt
  | .str s => .ok s
  | .num n => .ok (toString n)
  | _ => .error (desc ++ " must contain a string field '" ++ field ++ "'.")

/-- Modelled from the spec: `luaX_get_table_bool` from `lua-utils.cpp`
(not among the sources).  Reads a boolean field with a default for nil. -/
def luaX_get_table_bool (value : LuaScalar) (field desc : String)
    (dflt : Bool) : Except String Bool :=
  match value with
  | .nil => .ok dflt
  | .boolean b => .ok b
  | _ => .error (desc ++ " field '" ++ field ++ "' must be a boolean field.")

/-- Modelled from the spec: the conservative identifier grammar that table
and column names must satisfy (`check_identifier` from `util.cpp`, not
among the sources): nonempty, letters, digits and underscores. -/
def is_identifier_char (c : Char) : Bool :=
  c.isAlpha || c.isDigit || c == '_'

/-- A name accepted by the identifier grammar. -/
def valid_identifier (s : String) : Bool :=
  !s.data.isEmpty && s.data.all is_identifier_char

/-- Modelled from the spec: `check_identifier` from `util.cpp` (not among
the sources); throws on a name outside the conservative grammar. -/
def check_identifier (s : String) (what : String) : Except String Unit :=
  if valid_identifier s then .ok ()
  else .error ("Special characters are not allowed in " ++ what ++ ": '" ++
               s ++ "'.")

/-- Modelled from the spec: the live capabilities probe of the database
(`pgsql-capabilities.cpp`, not among the sources): the tablespaces and
schemas that exist, read from pg_tablespace / pg_namespace. -/
structure Capabilities where
  tablespaces : List String := []
  schemas : List String := []
deriving DecidableEq, Repr

/-- Modelled from the spec: `has_tablespace` from the capabilities probe. -/
def has_tablespace (caps : Capabilities) (s : String) : Bool :=
  caps.tablespaces.contains s

/-- Modelled from the spec: `has_schema` from the capabilities probe. -/
def has_schema (caps : Capabilities) (s : String) : Bool :=
  caps.schemas.contains s

/-- `osmium::item_type`, the cases the id-column code uses. -/
inductive item_type where
  | node
  | way
  | relation
  | area
  | undefined
deriving DecidableEq, Repr

/-- Modelled from the spec: the fixed closed set of logical column types
(`table_column_type` from `flex-table-column.hpp`, not among the sources):
text, boolean, integer widths, real, numeric, hstore/json, direction,
geometry subtypes, area, id_num, id_type. -/
inductive table_column_type where
  | text
  | boolean
  | int2
  | int4
  | int8
  | real
  | numeric
  | hstore
  | json
  | jsonb
  | direction
  | geometry
  | point
  | linestring
  | polygon
  | multipoint
  | multilinestring
  | multipolygon
  | geometrycollection
  | area
  | id_type
  | id_num
deriving DecidableEq, Repr

/-- Modelled from the spec: the parsing of a column type string into the
fixed set of logical types; an unknown string is a configuration error. -/
def parse_column_type (s : String) : Option table_column_type :=
  if s == "text" then some .text
  else if s == "boolean" then some .boolean
  else if s == "int2" then some .int2
  else if s == "int4" then some .int4
  else if s == "int8" then some .int8
  else if s == "real" then some .real
  else if s == "numeric" then some .numeric
  else if s == "hstore" then some .hstore
  else if s == "json" then some .json
  else if s == "jsonb" then some .jsonb
  else if s == "direction" then some .direction
  else if s == "geometry" then some .geometry
  else if s == "point" then some .point
  else if s == "linestring" then some .linestring
  else if s == "polygon" then some .polygon
  else if s == "multipoint" then some .multipoint
  else if s == "multilinestring" then some .multilinestring
  else if s == "multipolygon" then some .multipolygon
  else if s == "geometrycollection" then some .geometrycollection
  else if s == "area" then some .area
  else if s == "id_type" then some .id_type
  else if s == "id_num" then some .id_num
  else none

/-- Whether a logical type is one of the geometry subtypes
(`flex_table_column_t::is_geometry_column`; note that `area` is not a
geometry type, hence the separate disjunct in the projection check). -/
def is_geometry_type : table_column_type → Bool
  | .geometry => true
  | .point => true
  | .linestring => true
  | .polygon => true
  | .multipoint => true
  | .multilinestring => true
  | .multipolygon => true
  | .geometrycollection => true
  | _ => false

/-- A column of a flex table (`flex_table_column_t`, modelled from the
spec: name, logical type, SQL type override, nullability, create-only,
projection). -/
structure flex_table_column_t where
  name : String
  ctype : table_column_type
  sql_type : String
  not_null : Bool := false
  create_only : Bool := false
  projection : Option String := none
deriving DecidableEq, Repr

/-- `flex_table_column_t::is_geometry_column`. -/
def flex_table_column_t.is_geometry_column (c : flex_table_column_t) : Bool :=
  is_geometry_type c.ctype

/-- A secondary index of a flex table (`flex_index_t`, modelled from the
spec: method, columns, fillfactor, tablespace). -/
structure flex_index_t where
  method : String
  columns : String := ""
  fillfactor : Option Nat := none
  tablespace : String := ""
deriving DecidableEq, Repr

/-- A flex table under construction (`flex_table_t`, modelled from the
spec: name, optional schema and cluster settings, tablespaces, the ids
configuration, the ordered column list and the ordered index list). -/
structure flex_table_t where
  name : String
  schema : String := "public"
  cluster_by_geom : Bool := false
  data_tablespace : String := ""
  index_tablespace : String := ""
  id_type : Option item_type := none
  always_build_id_index : Bool := false
  columns : List flex_table_column_t := []
  indexes : List flex_index_t := []
deriving DecidableEq, Repr

namespace flex_table_t

/-- `flex_table_t::set_id_type`. -/
def set_id_type (t : flex_table_t) (ty : item_type) : flex_table_t :=
  { t with id_type := some ty }

/-- `flex_table_t::set_always_build_id_index`. -/
def set_always_build_id_index (t : flex_table_t) : flex_table_t :=
  { t with always_build_id_index := true }

/-- `flex_table_t::add_column` (modelled from the spec): parses the type
string against the fixed set, rejecting unknown types, and appends the new
column; the caller then mutates the returned column in place, which this
embedding renders as `modify_last_column`. -/
def add_column (t : flex_table_t) (cname ctype sql_type : String) :
    Except String flex_table_t :=
  match parse_column_type ctype with
  | none => .error ("Column type '" ++ ctype ++ "' is unknown.")
  | some ty =>
      .ok { t with columns := t.columns ++
              [{ name := cname, ctype := ty, sql_type := sql_type }] }

/-- Mutation of the most recently added column through the reference that
`add_column` returns in the C++ code. -/
def modify_last_column (t : flex_table_t)
    (f : flex_table_column_t → flex_table_column_t) : flex_table_t :=
  { t with columns := t.columns.dropLast ++
      (match t.columns.getLast? with
       | some c => [f c]
       | none => []) }

/-- `flex_table_t::has_id_column` (modelled from the spec): whether an
id_num column has been configured. -/
def has_id_column (t : flex_table_t) : Bool :=
  t.columns.any (fun c => c.ctype == .id_num)

/-- `flex_table_t::geom_column` (modelled from the spec): the first
geometry column of the table, when there is one. -/
def geom_column (t : flex_table_t) : Option flex_table_column_t :=
  t.columns.find? (fun c => c.is_geometry_column)

/-- `flex_table_t::has_geom_column`. -/
def has_geom_column (t : flex_table_t) : Bool :=
  t.geom_column.isSome

end flex_table_t

/-- `util::find_by_name`: the first table in the vector carrying the given
name, if any. -/
def find_by_name (tables : List flex_table_t) (s : String) :
    Option flex_table_t :=
  tables.find? (fun t => t.name == s)

/-- The outcome of one table-mutating block of the C++ code: the table
state on exit (also on a throw), the thrown message if any, and the
log-warning lines emitted. -/
structure TableStep where
  table : flex_table_t
  err : Option String := none
  warnings : List String := []
deriving DecidableEq, Repr

/-- Sequencing of table-mutating blocks: a thrown exception skips the rest
but keeps the state mutated so far. -/
def TableStep.andThen (r : TableStep) (f : flex_table_t → TableStep) :
    TableStep :=
  match r.err with
  | some _ => r
  | none =>
      let s := f r.table
      { s with warnings := r.warnings ++ s.warnings }

/-- The outcome of `create_flex_table` / `setup_flex_table`: the tables
vector on exit (also on a throw), the thrown message if any, and the
warnings emitted. -/
structure SetupResult where
  tables : List flex_table_t
  err : Option String := none
  warnings : List String := []
deriving DecidableEq, Repr

/-- The Lua table passed to `define_table`: the fields the C++ code reads
with `lua_getfield`; absent fields are nil. -/
structure IdsDef where
  type : LuaScalar := .nil
  type_column : LuaScalar := .nil
  id_column : LuaScalar := .nil
  create_index : LuaScalar := .nil
deriving DecidableEq, Repr

/-- The "ids" field of a table definition as `lua_type` classifies it:
nil, some non-table value, or a table of fields. -/
inductive IdsField where
  | nil
  | notTable
  | tbl (d : IdsDef)
deriving DecidableEq, Repr

/-- One entry of the "columns" array: the fields the C++ code reads. -/
structure ColumnDef where
  type : LuaScalar := .nil
  column : LuaScalar := .nil
  sql_type : LuaScalar := .nil
  not_null : LuaScalar := .nil
  create_only : LuaScalar := .nil
  projection : LuaScalar := .nil
deriving DecidableEq, Repr

/-- One entry of the "columns" array as `lua_istable` classifies it. -/
inductive ColumnEntry where
  | notTable
  | col (c : ColumnDef)
deriving DecidableEq, Repr

/-- The "columns" field of a table definition: not a table at all
(including absent), a table that is not an array, or an array of
entries. -/
inductive ColumnsField where
  | notTable
  | notArray
  | arr (entries : List ColumnEntry)
deriving DecidableEq, Repr

/-- One entry of the "indexes" array: the fields `flex_lua_setup_index`
reads (modelled from the spec: method, columns, tablespace, fillfactor). -/
structure IndexDef where
  method : LuaScalar := .nil
  column : LuaScalar := .nil
  tablespace : LuaScalar := .nil
deriving DecidableEq, Repr

/-- One entry of the "indexes" array as `lua_istable` classifies it. -/
inductive IndexEntry where
  | notTable
  | idx (d : IndexDef)
deriving DecidableEq, Repr

/-- The "indexes" field of a table definition: nil (default index logic),
a non-table value, a table that is not an array, or an array. -/
inductive IndexesField where
  | nil
  | notTable
  | notArray
  | arr (entries : List IndexEntry)
deriving DecidableEq, Repr

/-- A table definition: the top-level fields `create_flex_table` and the
`setup_flex_table_*` helpers read from the Lua table. -/
structure TableDef where
  name : LuaScalar := .nil
  schema : LuaScalar := .nil
  cluster : LuaScalar := .nil
  data_tablespace : LuaScalar := .nil
  index_tablespace : LuaScalar := .nil
  ids : IdsField := .nil
  columns : ColumnsField := .notTable
  indexes : IndexesField := .nil
deriving DecidableEq, Repr

/-- The argument of `define_table` as `lua_type` classifies it. -/
inductive LuaArg where
  | notTable
  | tbl (d : TableDef)
deriving DecidableEq, Repr

/-- `check_tablespace`: a tablespace must exist in the capabilities probe;
the error names the tablespace and the SQL that would create it. -/
def check_tablespace (caps : Capabilities) (tablespace : String) :
    Except String Unit :=
  if has_tablespace caps tablespace then .ok ()
  else .error ("Tablespace '" ++ tablespace ++ "' not available." ++
               " Use 'CREATE TABLESPACE \"" ++ tablespace ++
               "\" ...;' to create it.")

/-- The optional "schema" block of `create_flex_table`: a string field is
checked as an identifier and against the capabilities probe; a non-string
value is silently ignored. -/
def setup_schema_field (caps : Capabilities) (v : LuaScalar)
    (t : flex_table_t) : TableStep :=
  if lua_isstring v then
    let schema := lua_tostring v
    match check_identifier schema "schema field" with
    | .error e => ⟨t, some e, []⟩
    | .ok () =>
        if has_schema caps schema then
          ⟨{ t with schema := schema }, none, []⟩
        else
          ⟨t, some ("Schema '" ++ schema ++ "' not available." ++
                    " Use 'CREATE SCHEMA \"" ++ schema ++
                    "\";' to create it."), []⟩
  else ⟨t, none, []⟩

/-- The optional "cluster" block of `create_flex_table`: only the strings
"auto" and "no" are accepted; nil is ignored; any other value throws. -/
def setup_cluster_field (v : LuaScalar) (t : flex_table_t) : TableStep :=
  match v with
  | .str cluster =>
      if cluster == "auto" then
        ⟨{ t with cluster_by_geom := true }, none, []⟩
      else if cluster == "no" then
        ⟨{ t with cluster_by_geom := false }, none, []⟩
      else
        ⟨t, some ("Unknown value '" ++ cluster ++ "' for 'cluster' table" ++
                  " option (use 'auto' or 'no')."), []⟩
  | .nil => ⟨t, none, []⟩
  | _ =>
      ⟨t, some "Unknown value for 'cluster' table option: Must be string.",
       []⟩

/-- The optional "data_tablespace" block of `create_flex_table`. -/
def setup_data_tablespace_field (caps : Capabilities) (v : LuaScalar)
    (t : flex_table_t) : TableStep :=
  if lua_isstring v then
    let tablespace := lua_tostring v
    match check_identifier tablespace "data_tablespace field" with
    | .error e => ⟨t, some e, []⟩
    | .ok () =>
        match check_tablespace caps tablespace with
        | .error e => ⟨t, some e, []⟩
        | .ok () => ⟨{ t with data_tablespace := tablespace }, none, []⟩
  else ⟨t, none, []⟩

/-- The optional "index_tablespace" block of `create_flex_table`. -/
def setup_index_tablespace_field (caps : Capabilities) (v : LuaScalar)
    (t : flex_table_t) : TableStep :=
  if lua_isstring v then
    let tablespace := lua_tostring v
    match check_identifier tablespace "index_tablespace field" with
    | .error e => ⟨t, some e, []⟩
    | .ok () =>
        match check_tablespace caps tablespace with
        | .error e => ⟨t, some e, []⟩
        | .ok () => ⟨{ t with index_tablespace := tablespace }, none, []⟩
  else ⟨t, none, []⟩

/-- The part of `create_flex_table` before `emplace_back`: read the "name"
field, check the identifier grammar, and reject a duplicate name. -/
def flex_table_name_phase (d : TableDef) (tables : List flex_table_t) :
    Except String String :=
  match luaX_get_table_string d.name "name" "The table" with
  | .error e => .error e
  | .ok table_name =>
      match check_identifier table_name "table names" with
      | .error e => .error e
      | .ok () =>
          if (find_by_name tables table_name).isSome then
            .error ("Table with name '" ++ table_name ++
                    "' already exists.")
          else .ok table_name

/-- The part of `create_flex_table` after `emplace_back`: the optional
"schema", "cluster", "data_tablespace" and "index_tablespace" blocks,
mutating the freshly appended table. -/
def create_flex_table_fields (caps : Capabilities) (d : TableDef)
    (t : flex_table_t) : TableStep :=
  (setup_schema_field caps d.schema t).andThen
    (setup_cluster_field d.cluster) |>.andThen
    (setup_data_tablespace_field caps d.data_tablespace) |>.andThen
    (setup_index_tablespace_field caps d.index_tablespace)

/-- `create_flex_table`: name phase, then `emplace_back` of the new table,
then the optional field blocks.  A throw in a field block leaves the
half-initialized table in the vector. -/
def create_flex_table (caps : Capabilities) (d : TableDef)
    (tables : List flex_table_t) : SetupResult :=
  match flex_table_name_phase d tables with
  | .error e => ⟨tables, some e, []⟩
  | .ok table_name =>
      let r := create_flex_table_fields caps d { name := table_name }
      ⟨tables ++ [r.table], r.err, r.warnings⟩

/-- The part of `setup_flex_table_id_columns` after the id-type dispatch:
the mandatory "id_column" name, the "create_index" policy (only "auto",
the default, and "always" are accepted), and the append of the not-null
id_num column. -/
def setup_flex_table_ids_rest (d : IdsDef) (t1 : flex_table_t) :
    TableStep :=
  match luaX_get_table_string d.id_column "id_column" "The ids field" with
  | .error e => ⟨t1, some e, []⟩
  | .ok nm =>
      match check_identifier nm "column names" with
      | .error e => ⟨t1, some e, []⟩
      | .ok () =>
          match luaX_get_table_string_opt d.create_index "create_index"
              "The ids field" "auto" with
          | .error e => ⟨t1, some e, []⟩
          | .ok ci =>
              let step2 : TableStep :=
                if ci == "always" then
                  ⟨t1.set_always_build_id_index, none, []⟩
                else if ci != "auto" then
                  ⟨t1, some ("Unknown value '" ++ ci ++
                       "' for 'create_index' field of ids"), []⟩
                else ⟨t1, none, []⟩
              step2.andThen (fun t2 =>
                match t2.add_column nm "id_num" "" with
                | .error e => ⟨t2, some e, []⟩
                | .ok t3 =>
                    ⟨t3.modify_last_column
                       (fun c => { c with not_null := true }), none, []⟩)

/-- The id-type dispatch of `setup_flex_table_id_columns`: the "type"
string selects one of "node", "way", "relation", "area" or "any" (any
other string is an error); for "any" an optional string "type_column" is
appended as a not-null id_type column. -/
def setup_flex_table_ids_type (ty : String) (d : IdsDef)
    (t : flex_table_t) : TableStep :=
  if ty == "node" then ⟨t.set_id_type .node, none, []⟩
  else if ty == "way" then ⟨t.set_id_type .way, none, []⟩
  else if ty == "relation" then ⟨t.set_id_type .relation, none, []⟩
  else if ty == "area" then ⟨t.set_id_type .area, none, []⟩
  else if ty == "any" then
    let t1 := t.set_id_type .undefined
    if lua_isstring d.type_column then
      let column_name := lua_tostring d.type_column
      match check_identifier column_name "column names" with
      | .error e => ⟨t1, some e, []⟩
      | .ok () =>
          match t1.add_column column_name "id_type" "" with
          | .error e => ⟨t1, some e, []⟩
          | .ok t2 =>
              ⟨t2.modify_last_column
                 (fun c => { c with not_null := true }), none, []⟩
    else if !lua_isnil d.type_column then
      ⟨t1, some "type_column must be a string or nil.", []⟩
    else ⟨t1, none, []⟩
  else ⟨t, some ("Unknown ids type: " ++ ty ++ "."), []⟩

/-- `setup_flex_table_id_columns`: without an "ids" table only a warning
is logged; otherwise the id type is dispatched by
`setup_flex_table_ids_type`, and then the "id_column" and "create_index"
fields are processed by `setup_flex_table_ids_rest`. -/
def setup_flex_table_id_columns (ids : IdsField) (t : flex_table_t) :
    TableStep :=
  match ids with
  | .nil | .notTable =>
      ⟨t, none,
       ["Table '" ++ t.name ++ "' doesn't have an id column. Two-stage" ++
        " processing, updates and expire will not work!"]⟩
  | .tbl d =>
      match luaX_get_table_string d.type "type" "The ids field" with
      | .error e => ⟨t, some e, []⟩
      | .ok ty =>
          (setup_flex_table_ids_type ty d t).andThen
            (setup_flex_table_ids_rest d)

/-- The body of the `luaX_for_each` lambda in `setup_flex_table_columns`:
process one entry of the "columns" array, appending one column on
success. -/
def setup_flex_column (e : ColumnEntry) (t : flex_table_t) : TableStep :=
  match e with
  | .notTable =>
      ⟨t, some "The entries in the 'columns' array must be tables.", []⟩
  | .col c =>
      match luaX_get_table_string_opt c.type "type" "Column entry"
          "text" with
      | .error e => ⟨t, some e, []⟩
      | .ok ty =>
          match luaX_get_table_string c.column "column" "Column entry" with
          | .error e => ⟨t, some e, []⟩
          | .ok nm =>
              match check_identifier nm "column names" with
              | .error e => ⟨t, some e, []⟩
              | .ok () =>
                  match luaX_get_table_string_opt c.sql_type "sql_type"
                      "Column entry" "" with
                  | .error e => ⟨t, some e, []⟩
                  | .ok st =>
                      match t.add_column nm ty st with
                      | .error e => ⟨t, some e, []⟩
                      | .ok t1 =>
                          match luaX_get_table_bool c.not_null "not_null"
                              "Entry 'not_null'" false with
                          | .error e => ⟨t1, some e, []⟩
                          | .ok nn =>
                              let t2 := t1.modify_last_column
                                (fun col => { col with not_null := nn })
                              match luaX_get_table_bool c.create_only
                                  "create_only" "Entry 'create_only'"
                                  false with
                              | .error e => ⟨t2, some e, []⟩
                              | .ok co =>
                                  let t3 := t2.modify_last_column
                                    (fun col =>
                                      { col with create_only := co })
                                  if lua_isnil c.projection then
                                    ⟨t3, none, []⟩
                                  else
                                    let geom_ok : Bool :=
                                      match t3.columns.getLast? with
                                      | some col =>
                                          col.is_geometry_column ||
                                            col.ctype == .area
                                      | none => false
                                    if geom_ok then
                                      let pr := lua_tostring c.projection
                                      ⟨t3.modify_last_column (fun col =>
                                         { col with projection := some pr }),
                                       none, []⟩
                                    else
                                      ⟨t3, some ("Projection can only be" ++
                                           " set on geometry and area" ++
                                           " columns."), []⟩

/-- The `luaX_for_each` loop over the "columns" array. -/
def setup_flex_columns_list (es : List ColumnEntry) (t : flex_table_t) :
    TableStep :=
  match es with
  | [] => ⟨t, none, []⟩
  | e :: rest => (setup_flex_column e t).andThen (setup_flex_columns_list rest)

/-- `setup_flex_table_columns`: the "columns" field must be an array;
every entry is processed in order; afterwards a table with zero processed
columns and no id column is rejected with an error naming the table. -/
def setup_flex_table_columns (cf : ColumnsField) (t : flex_table_t) :
    TableStep :=
  match cf with
  | .notTable =>
      ⟨t, some ("No 'columns' field (or not an array) in table '" ++
                t.name ++ "'."), []⟩
  | .notArray =>
      ⟨t, some "The 'columns' field must contain an array.", []⟩
  | .arr es =>
      (setup_flex_columns_list es t).andThen (fun t2 =>
        if es.isEmpty && !t2.has_id_column then
          ⟨t2, some ("No columns defined for table '" ++ t2.name ++ "'."),
           []⟩
        else ⟨t2, none, []⟩)

/-- Modelled from the spec: `flex_lua_setup_index` from
`flex-lua-index.cpp` (not among the sources); reads one entry of the
"indexes" array (method, columns, tablespace) and appends the declared
secondary index. -/
def flex_lua_setup_index (d : IndexDef) (t : flex_table_t) : TableStep :=
  match luaX_get_table_string d.method "method" "The index field" with
  | .error e => ⟨t, some e, []⟩
  | .ok m =>
      match luaX_get_table_string d.column "column" "The index field" with
      | .error e => ⟨t, some e, []⟩
      | .ok cols =>
          ⟨{ t with indexes := t.indexes ++
               [{ method := m, columns := cols,
                  tablespace := lua_tostring d.tablespace }] }, none, []⟩

/-- The `luaX_for_each` loop over the "indexes" array. -/
def setup_flex_indexes_list (es : List IndexEntry) (t : flex_table_t) :
    TableStep :=
  match es with
  | [] => ⟨t, none, []⟩
  | .notTable :: _ =>
      ⟨t, some "The entries in the 'indexes' array must be Lua tables.", []⟩
  | .idx d :: rest =>
      (flex_lua_setup_index d t).andThen (setup_flex_indexes_list rest)

/-- `setup_flex_table_indexes`: with no "indexes" field a default gist
index on the geometry column is added (when there is one), with
fillfactor 100 exactly when the database is not updatable, in the table's
index tablespace; otherwise the field must be an array of index
definitions. -/
def setup_flex_table_indexes (f : IndexesField) (t : flex_table_t)
    (updatable : Bool) : TableStep :=
  match f with
  | .nil =>
      match t.geom_column with
      | some g =>
          ⟨{ t with indexes := t.indexes ++
               [{ method := "gist", columns := g.name,
                  fillfactor := if updatable then none else some 100,
                  tablespace := t.index_tablespace }] }, none, []⟩
      | none => ⟨t, none, []⟩
  | .notTable =>
      ⟨t, some ("The 'indexes' field in definition of table '" ++ t.name ++
                "' is not an array."), []⟩
  | .notArray =>
      ⟨t, some "The 'indexes' field must contain an array.", []⟩
  | .arr es => setup_flex_indexes_list es t

/-- `setup_flex_table`: the argument must be a table; the table is created
(and appended to the vector), then the id columns, the columns and the
indexes are set up through the reference into the vector, so a throw in a
later phase leaves the partially constructed table in the vector. -/
def setup_flex_table (caps : Capabilities) (arg : LuaArg)
    (tables : List flex_table_t) (updatable : Bool) : SetupResult :=
  match arg with
  | .notTable =>
      ⟨tables, some "Argument #1 to 'define_table' must be a table.", []⟩
  | .tbl d =>
      match flex_table_name_phase d tables with
      | .error e => ⟨tables, some e, []⟩
      | .ok table_name =>
          let r := (create_flex_table_fields caps d
                      { name := table_name }).andThen
                     (setup_flex_table_id_columns d.ids) |>.andThen
                     (setup_flex_table_columns d.columns) |>.andThen
                     (fun t => setup_flex_table_indexes d.indexes t
                                 updatable)
          ⟨tables ++ [r.table], r.err, r.warnings⟩

/-! Concrete inputs used to exercise the embedding on closed terms. -/

/-- A capabilities probe of a database with no extra tablespaces or
schemas. -/
def caps_probe_empty : Capabilities := {}

/-- A table definition with `cluster = "auto"` and a single text column,
hence no geometry column. -/
def def_cluster_auto_no_geom : TableDef :=
  { name := .str "pois", cluster := .str "auto",
    columns := .arr [.col { column := .str "tags", type := .str "text" }] }

/-- A table definition whose cluster option carries an unknown value, so
that a validation after the `emplace_back` throws. -/
def def_bad_cluster : TableDef :=
  { name := .str "houses", cluster := .str "bogus",
    columns := .arr [.col { column := .str "x", type := .str "text" }] }

/-- An ids configuration of type "any" with a type column and an
always-build index policy. -/
def ids_any_always : IdsDef :=
  { type := .str "any", type_column := .str "osm_kind",
    id_column := .str "osm_id", create_index := .str "always" }

/-- A column entry declaring a projection on a point column. -/
def col_point_projected : ColumnDef :=
  { column := .str "geom", type := .str "point", projection := .str "4326" }

/-- An empty flex table named "p". -/
def table_p : flex_table_t := { name := "p" }

/-- A flex table with one point geometry column, named "q". -/
def table_q : flex_table_t :=
  { name := "q", index_tablespace := "fastspace",
    columns := [{ name := "geom", ctype := .point, sql_type := "" }] }

end Osm2pgsql

namespace osmium.util

/-- The outcome of a size-reporting system call (`fstat`/`stat`): the
`st_size` the operating system reports, or a failure with its errno. -/
inductive StatCall where
  | ok (st_size : Nat)
  | fail (errno : Int)
deriving DecidableEq, Repr

/-- The outcome of the `ftruncate(2)` system call: zero, or a failure
with its errno. -/
inductive TruncateCall where
  | ok
  | fail (errno : Int)
deriving DecidableEq, Repr

/-- A `std::system_error` as thrown by the file utilities: the errno of
the failed call (in the system category) and the explanatory message. -/
structure SystemError where
  errno : Int
  what : String
deriving DecidableEq, Repr

/-- `osmium::util::file_size(int fd)`: a thin wrapper around `fstat`;
a failing call becomes a thrown `std::system_error`, a successful call
returns the size the operating system reported. -/
def file_size (fstat_result : StatCall) : Except SystemError Nat :=
  match fstat_result with
  | .fail e => .error { errno := e, what := "Could not get file size" }
  | .ok st_size => .ok st_size

/-- `osmium::util::file_size(const char *name)`: the overload that names
the file in the error message; same wrapper around `stat`. -/
def file_size_of_name (stat_result : StatCall) (name : String) :
    Except SystemError Nat :=
  match stat_result with
  | .fail e =>
      .error { errno := e,
               what := "Could not get file size of file '" ++ name ++ "'" }
  | .ok st_size => .ok st_size

/-- `osmium::util::resize_file`: a thin wrapper around `ftruncate`; a
failing call becomes a thrown `std::system_error`. -/
def resize_file (ftruncate_result : TruncateCall) :
    Except SystemError Unit :=
  match ftruncate_result with
  | .fail e => .error { errno := e, what := "Could not resize file" }
  | .ok => .ok ()

end osmium.util

namespace Osm2pgsql

/-! Helper lemmas about the sequencing of table-mutating blocks. -/

lemma TableStep.andThen_some {r : TableStep} {e : String}
    (f : flex_table_t → TableStep) (h : r.err = some e) :
    r.andThen f = r := by
  unfold TableStep.andThen
  rw [h]

lemma TableStep.andThen_none {r : TableStep}
    (f : flex_table_t → TableStep) (h : r.err = none) :
    r.andThen f =
      { f r.table with warnings := r.warnings ++ (f r.table).warnings } := by
  unfold TableStep.andThen
  rw [h]

lemma TableStep.err_none_andThen {r : TableStep}
    {f : flex_table_t → TableStep} (h : (r.andThen f).err = none) :
    r.err = none ∧ (f r.table).err = none := by
  cases he : r.err with
  | some e => rw [TableStep.andThen_some f he] at h; rw [he] at h; cases h
  | none => rw [TableStep.andThen_none f he] at h; exact ⟨rfl, h⟩

lemma TableStep.table_andThen {r : TableStep} {f : flex_table_t → TableStep}
    (h : r.err = none) : (r.andThen f).table = (f r.table).table := by
  rw [TableStep.andThen_none f h]

lemma add_column_ok {t t' : flex_table_t} {n ty st : String}
    (h : t.add_column n ty st = .ok t') :
    ∃ cty, parse_column_type ty = some cty ∧
      t' = { t with columns := t.columns ++
               [{ name := n, ctype := cty, sql_type := st }] } := by
  unfold flex_table_t.add_column at h
  cases hp : parse_column_type ty with
  | none => rw [hp] at h; cases h
  | some cty =>
      rw [hp] at h
      exact ⟨cty, rfl, (Except.ok.injEq _ _).mp h.symm⟩

lemma modify_last_column_concat (t : flex_table_t)
    (l : List flex_table_column_t) (c : flex_table_column_t)
    (f : flex_table_column_t → flex_table_column_t) :
    ({ t with columns := l ++ [c] } : flex_table_t).modify_last_column f =
      { t with columns := l ++ [f c] } := by
  unfold flex_table_t.modify_last_column
  rw [List.dropLast_concat, List.getLast?_concat]

/-! The table name is never changed after `emplace_back`: every block of
`setup_flex_table` preserves it.  Needed to describe the partially
constructed table a throw leaves in the vector. -/

lemma parse_column_type_id_type : parse_column_type "id_type" = some .id_type := by
  decide

lemma parse_column_type_id_num : parse_column_type "id_num" = some .id_num := by
  decide

lemma name_andThen {r : TableStep} {f : flex_table_t → TableStep}
    (hf : ∀ t, (f t).table.name = t.name) :
    (r.andThen f).table.name = r.table.name := by
  cases he : r.err with
  | some e => rw [TableStep.andThen_some f he]
  | none => rw [TableStep.andThen_none f he]; exact hf r.table

lemma name_modify_last_column (t : flex_table_t)
    (f : flex_table_column_t → flex_table_column_t) :
    (t.modify_last_column f).name = t.name := rfl

lemma name_add_column {t t' : flex_table_t} {n ty st : String}
    (h : t.add_column n ty st = .ok t') : t'.name = t.name := by
  obtain ⟨cty, -, rfl⟩ := add_column_ok h
  rfl

lemma name_setup_schema_field (caps : Capabilities) (v : LuaScalar)
    (t : flex_table_t) :
    (setup_schema_field caps v t).table.name = t.name := by
  simp only [setup_schema_field]
  split
  · split
    · rfl
    · split <;> rfl
  · rfl

lemma name_setup_cluster_field (v : LuaScalar) (t : flex_table_t) :
    (setup_cluster_field v t).table.name = t.name := by
  unfold setup_cluster_field
  split <;> first | rfl | (split <;> first | rfl | (split <;> rfl))

lemma name_setup_data_tablespace_field (caps : Capabilities) (v : LuaScalar)
    (t : flex_table_t) :
    (setup_data_tablespace_field caps v t).table.name = t.name := by
  simp only [setup_data_tablespace_field]
  split
  · split
    · rfl
    · split <;> rfl
  · rfl

lemma name_setup_index_tablespace_field (caps : Capabilities)
    (v : LuaScalar) (t : flex_table_t) :
    (setup_index_tablespace_field caps v t).table.name = t.name := by
  simp only [setup_index_tablespace_field]
  split
  · split
    · rfl
    · split <;> rfl
  · rfl

lemma name_create_flex_table_fields (caps : Capabilities) (d : TableDef)
    (t : flex_table_t) :
    (create_flex_table_fields caps d t).table.name = t.name := by
  unfold create_flex_table_fields
  rw [name_andThen
        (fun t => name_setup_index_tablespace_field caps d.index_tablespace t),
      name_andThen
        (fun t => name_setup_data_tablespace_field caps d.data_tablespace t),
      name_andThen (fun t => name_setup_cluster_field d.cluster t),
      name_setup_schema_field]

lemma name_setup_flex_table_ids_rest (d : IdsDef) (t1 : flex_table_t) :
    (setup_flex_table_ids_rest d t1).table.name = t1.name := by
  simp only [setup_flex_table_ids_rest]
  split
  · rfl
  · rename_i nm hnm
    split
    · rfl
    · split
      · rfl
      · rw [name_andThen]
        · split <;> first | rfl | (split <;> rfl)
        · intro t2
          cases ha : t2.add_column nm "id_num" "" with
          | error e => simp only [ha]
          | ok t3 =>
              simp only [ha, name_modify_last_column]
              exact name_add_column ha

lemma name_setup_flex_table_ids_type (ty : String) (d : IdsDef)
    (t : flex_table_t) :
    (setup_flex_table_ids_type ty d t).table.name = t.name := by
  simp only [setup_flex_table_ids_type]
  split
  · rfl
  · split
    · rfl
    · split
      · rfl
      · split
        · rfl
        · split
          · split
            · split
              · rfl
              · split
                · rfl
                · rename_i t2 heq
                  simp only [name_modify_last_column]
                  exact (name_add_column heq).trans rfl
            · split <;> rfl
          · rfl

lemma name_setup_flex_table_id_columns (ids : IdsField)
    (t : flex_table_t) :
    (setup_flex_table_id_columns ids t).table.name = t.name := by
  cases ids with
  | nil => rfl
  | notTable => rfl
  | tbl d =>
      simp only [setup_flex_table_id_columns]
      cases hty : luaX_get_table_string d.type "type" "The ids field" with
      | error e => rfl
      | ok ty =>
          rw [name_andThen (fun t1 => name_setup_flex_table_ids_rest d t1),
              name_setup_flex_table_ids_type]

lemma name_setup_flex_column (e : ColumnEntry) (t : flex_table_t) :
    (setup_flex_column e t).table.name = t.name := by
  cases e with
  | notTable => rfl
  | col c =>
      simp only [setup_flex_column]
      split
      · rfl
      · split
        · rfl
        · split
          · rfl
          · split
            · rfl
            · split
              · rfl
              · rename_i t1 ha
                have hn : t1.name = t.name := name_add_column ha
                repeat' split
                all_goals exact hn

lemma name_setup_flex_columns_list (es : List ColumnEntry) :
    ∀ t, (setup_flex_columns_list es t).table.name = t.name := by
  induction es with
  | nil => intro t; rfl
  | cons e rest ih =>
      intro t
      simp only [setup_flex_columns_list]
      rw [name_andThen ih, name_setup_flex_column]

lemma name_setup_flex_table_columns (cf : ColumnsField) (t : flex_table_t) :
    (setup_flex_table_columns cf t).table.name = t.name := by
  cases cf with
  | notTable => rfl
  | notArray => rfl
  | arr es =>
      simp only [setup_flex_table_columns]
      rw [name_andThen (fun t2 => by split <;> rfl),
          name_setup_flex_columns_list]

lemma name_flex_lua_setup_index (d : IndexDef) (t : flex_table_t) :
    (flex_lua_setup_index d t).table.name = t.name := by
  simp only [flex_lua_setup_index]
  split
  · rfl
  · split <;> rfl

lemma name_setup_flex_indexes_list (es : List IndexEntry) :
    ∀ t, (setup_flex_indexes_list es t).table.name = t.name := by
  induction es with
  | nil => intro t; rfl
  | cons e rest ih =>
      intro t
      cases e with
      | notTable => rfl
      | idx d =>
          simp only [setup_flex_indexes_list]
          rw [name_andThen ih, name_flex_lua_setup_index]

lemma name_setup_flex_table_indexes (f : IndexesField) (t : flex_table_t)
    (u : Bool) :
    (setup_flex_table_indexes f t u).table.name = t.name := by
  cases f with
  | nil => simp only [setup_flex_table_indexes]; split <;> rfl
  | notTable => rfl
  | notArray => rfl
  | arr es => exact name_setup_flex_indexes_list es t

/-! The index phase never touches the column list. -/

lemma cols_andThen {r : TableStep} {f : flex_table_t → TableStep}
    (hf : ∀ t, (f t).table.columns = t.columns) :
    (r.andThen f).table.columns = r.table.columns := by
  cases he : r.err with
  | some e => rw [TableStep.andThen_some f he]
  | none => rw [TableStep.andThen_none f he]; exact hf r.table

lemma cols_flex_lua_setup_index (d : IndexDef) (t : flex_table_t) :
    (flex_lua_setup_index d t).table.columns = t.columns := by
  simp only [flex_lua_setup_index]
  split
  · rfl
  · split <;> rfl

lemma cols_setup_flex_indexes_list (es : List IndexEntry) :
    ∀ t, (setup_flex_indexes_list es t).table.columns = t.columns := by
  induction es with
  | nil => intro t; rfl
  | cons e rest ih =>
      intro t
      cases e with
      | notTable => rfl
      | idx d =>
          simp only [setup_flex_indexes_list]
          rw [cols_andThen ih, cols_flex_lua_setup_index]

lemma cols_setup_flex_table_indexes (f : IndexesField) (t : flex_table_t)
    (u : Bool) :
    (setup_flex_table_indexes f t u).table.columns = t.columns := by
  cases f with
  | nil => simp only [setup_flex_table_indexes]; split <;> rfl
  | notTable => rfl
  | notArray => rfl
  | arr es => exact cols_setup_flex_indexes_list es t

/-! Every successfully processed column entry appends exactly one
column. -/

lemma setup_flex_column_cols {e : ColumnEntry} {t : flex_table_t}
    (h : (setup_flex_column e t).err = none) :
    ∃ c, (setup_flex_column e t).table.columns = t.columns ++ [c] := by
  cases e with
  | notTable => cases h
  | col c =>
      revert h
      simp only [setup_flex_column]
      split
      · intro h; cases h
      · split
        · intro h; cases h
        · split
          · intro h; cases h
          · split
            · intro h; cases h
            · split
              · intro h; cases h
              · rename_i t1 ha
                obtain ⟨cty, hp, rfl⟩ := add_column_ok ha
                split
                · intro h; cases h
                · split
                  · intro h; cases h
                  · rw [modify_last_column_concat, modify_last_column_concat]
                    split
                    · intro _; exact ⟨_, rfl⟩
                    · split
                      · rw [modify_last_column_concat]
                        intro _; exact ⟨_, rfl⟩
                      · intro h; cases h

lemma setup_flex_columns_list_len (es : List ColumnEntry) :
    ∀ t, (setup_flex_columns_list es t).err = none →
      ((setup_flex_columns_list es t).table.columns).length =
        t.columns.length + es.length := by
  induction es with
  | nil => intro t _; simp [setup_flex_columns_list]
  | cons e rest ih =>
      intro t h
      simp only [setup_flex_columns_list] at h ⊢
      obtain ⟨h1, h2⟩ := TableStep.err_none_andThen h
      rw [TableStep.table_andThen h1]
      obtain ⟨c, hc⟩ := setup_flex_column_cols h1
      have := ih (setup_flex_column e t).table h2
      rw [hc] at this
      simp only [List.length_append, List.length_cons, List.length_nil] at this
      rw [this]
      simp [List.length_cons]
      omega

lemma check_identifier_ok {s w : String} :
    check_identifier s w = .ok () ↔ valid_identifier s = true := by
  unfold check_identifier
  split <;> simp_all

lemma has_id_of_cols_eq {t1 t2 : flex_table_t}
    (h : t1.columns = t2.columns) :
    t1.has_id_column = t2.has_id_column := by
  unfold flex_table_t.has_id_column
  rw [h]

/-- A successful `setup_flex_table_ids_rest` read a legal id_column name
and an accepted create_index policy, and appended the not-null id_num
column at the end. -/
lemma ids_rest_success {d : IdsDef} {t1 : flex_table_t}
    (h : (setup_flex_table_ids_rest d t1).err = none) :
    ∃ nm ci,
      luaX_get_table_string d.id_column "id_column" "The ids field" =
        .ok nm ∧
      valid_identifier nm = true ∧
      luaX_get_table_string_opt d.create_index "create_index"
        "The ids field" "auto" = .ok ci ∧
      (ci = "auto" ∨ ci = "always") ∧
      (setup_flex_table_ids_rest d t1).table.columns =
        t1.columns ++ [{ name := nm, ctype := .id_num, sql_type := "",
                         not_null := true }] := by
  revert h
  simp only [setup_flex_table_ids_rest]
  split
  · intro h; cases h
  · rename_i nm hnm
    split
    · intro h; cases h
    · rename_i u hcid
      split
      · intro h; cases h
      · rename_i ci hci
        intro h
        have hv : valid_identifier nm = true := check_identifier_ok.mp hcid
        refine ⟨nm, ci, hnm, hv, hci, ?_, ?_⟩
        · by_cases ha : ci = "always"
          · exact Or.inr ha
          · left
            by_cases hau : ci = "auto"
            · exact hau
            · exfalso
              obtain ⟨h1, -⟩ := TableStep.err_none_andThen h
              simp [ha, hau] at h1
        · have hstep : (if ci == "always" then
              (⟨t1.set_always_build_id_index, none, []⟩ : TableStep)
            else if ci != "auto" then
              ⟨t1, some ("Unknown value '" ++ ci ++
                   "' for 'create_index' field of ids"), []⟩
            else ⟨t1, none, []⟩).table.columns = t1.columns := by
            split
            · rfl
            · split <;> rfl
          obtain ⟨h1, h2⟩ := TableStep.err_none_andThen h
          rw [TableStep.table_andThen h1]
          revert h2
          set t2 := (if ci == "always" then
              (⟨t1.set_always_build_id_index, none, []⟩ : TableStep)
            else if ci != "auto" then
              ⟨t1, some ("Unknown value '" ++ ci ++
                   "' for 'create_index' field of ids"), []⟩
            else ⟨t1, none, []⟩).table with ht2
          intro h2
          simp only [flex_table_t.add_column, parse_column_type_id_num]
          rw [modify_last_column_concat]
          simp [hstep]

/-- A successful `setup_flex_table_columns` leaves a table that has at
least one column or an id column. -/
lemma setup_flex_table_columns_success {cf : ColumnsField}
    {t : flex_table_t}
    (h : (setup_flex_table_columns cf t).err = none) :
    (setup_flex_table_columns cf t).table.columns ≠ [] ∨
      (setup_flex_table_columns cf t).table.has_id_column = true := by
  cases cf with
  | notTable => cases h
  | notArray => cases h
  | arr es =>
      simp only [setup_flex_table_columns] at h ⊢
      obtain ⟨h1, h2⟩ := TableStep.err_none_andThen h
      rw [TableStep.table_andThen h1]
      have htab : ∀ t2 : flex_table_t,
          ((if es.isEmpty && !t2.has_id_column then
              (⟨t2, some ("No columns defined for table '" ++ t2.name ++
                 "'."), []⟩ : TableStep)
            else ⟨t2, none, []⟩)).table = t2 := by
        intro t2; split <;> rfl
      rw [htab]
      by_cases hid : (setup_flex_columns_list es t).table.has_id_column
      · exact Or.inr hid
      · left
        simp only [hid, Bool.not_false, Bool.and_true] at h2
        cases hes : es.isEmpty with
        | true => rw [hes] at h2; cases h2
        | false =>
            have hlen := setup_flex_columns_list_len es t h1
            have : 0 < es.length := by
              cases es with
              | nil => cases hes
              | cons e rest => simp
            have : 0 < ((setup_flex_columns_list es t).table.columns).length := by
              omega
            exact List.ne_nil_of_length_pos this

lemma ids_type_success {ty : String} {d : IdsDef} {t : flex_table_t}
    (h : (setup_flex_table_ids_type ty d t).err = none) :
    ty = "node" ∨ ty = "way" ∨ ty = "relation" ∨ ty = "area" ∨
      ty = "any" := by
  by_contra hno
  push_neg at hno
  obtain ⟨n1, n2, n3, n4, n5⟩ := hno
  simp [setup_flex_table_ids_type, n1, n2, n3, n4, n5] at h

/-- For an "any" ids configuration with a string type column, the id-type
dispatch appends exactly the not-null id_type column. -/
lemma ids_type_any_cols {d : IdsDef} {t : flex_table_t} {cn : String}
    (htc : d.type_column = .str cn)
    (h : (setup_flex_table_ids_type "any" d t).err = none) :
    (setup_flex_table_ids_type "any" d t).table.columns =
      t.columns ++ [{ name := cn, ctype := .id_type, sql_type := "",
                      not_null := true }] := by
  revert h
  simp only [setup_flex_table_ids_type, htc]
  cases hchk : check_identifier cn "column names" with
  | error e => intro h; simp [lua_isstring, lua_tostring, hchk] at h
  | ok u =>
      intro _
      simp [lua_isstring, lua_tostring, hchk, flex_table_t.add_column,
            parse_column_type_id_type, flex_table_t.modify_last_column,
            List.dropLast_concat, List.getLast?_concat,
            flex_table_t.set_id_type]

/-! Theorems for the specification claims. -/

/-- C6: with no "indexes" field, `setup_flex_table_indexes` adds exactly
one default index - method "gist" on the geometry column's name, in the
table's index tablespace, with fillfactor 100 exactly when the updatable
flag is false - and adds no default index when the table has no geometry
column. -/
theorem default_gist_index_on_geometry (t : flex_table_t) (u : Bool) :
    ((setup_flex_table_indexes .nil t u).err = none) ∧
    (∀ g, t.geom_column = some g →
       (setup_flex_table_indexes .nil t u).table =
         { t with indexes := t.indexes ++
             [{ method := "gist", columns := g.name,
                fillfactor := if u then none else some 100,
                tablespace := t.index_tablespace }] }) ∧
    (t.geom_column = none → (setup_flex_table_indexes .nil t u).table = t) := by
  refine ⟨?_, ?_, ?_⟩
  · simp only [setup_flex_table_indexes]
    split <;> rfl
  · intro g hg
    simp only [setup_flex_table_indexes, hg]
  · intro hg
    simp only [setup_flex_table_indexes, hg]

/-- Witness for C6: on a table with one point column and index tablespace
"fastspace", in non-updatable mode, the default gist index appears with
fillfactor 100. -/
theorem default_gist_index_on_geometry_witness :
    (setup_flex_table_indexes .nil table_q false).table =
      { table_q with indexes := [{ method := "gist", columns := "geom",
                                   fillfactor := some 100,
                                   tablespace := "fastspace" }] } :=
  (default_gist_index_on_geometry table_q false).2.1
    { name := "geom", ctype := .point, sql_type := "" } rfl

/-- C8: `osmium::util::file_size` and `osmium::util::resize_file` turn a
failing system call into a thrown `std::system_error`, and a successful
`file_size` returns exactly the size the operating system reported. -/
theorem file_io_failures_are_system_errors :
    (∀ e : Int, osmium.util.file_size (.fail e) =
       .error { errno := e, what := "Could not get file size" }) ∧
    (∀ n : Nat, osmium.util.file_size (.ok n) = .ok n) ∧
    (∀ (e : Int) (nm : String),
       osmium.util.file_size_of_name (.fail e) nm =
         .error { errno := e,
                  what := "Could not get file size of file '" ++ nm ++ "'" }) ∧
    (∀ (n : Nat) (nm : String),
       osmium.util.file_size_of_name (.ok n) nm = .ok n) ∧
    (∀ e : Int, osmium.util.resize_file (.fail e) =
       .error { errno := e, what := "Could not resize file" }) ∧
    osmium.util.resize_file .ok = .ok () :=
  ⟨fun _ => rfl, fun _ => rfl, fun _ _ => rfl, fun _ _ => rfl,
   fun _ => rfl, rfl⟩

/-- C9: with an "ids" field that is absent or not a table,
`setup_flex_table_id_columns` does not throw: it leaves the table exactly
as it was (in particular without an id column) and logs one warning. -/
theorem ids_absent_warns_and_accepts (t : flex_table_t) :
    (setup_flex_table_id_columns .nil t).err = none ∧
    (setup_flex_table_id_columns .nil t).table = t ∧
    (setup_flex_table_id_columns .nil t).warnings.length = 1 ∧
    (setup_flex_table_id_columns .notTable t).err = none ∧
    (setup_flex_table_id_columns .notTable t).table = t ∧
    (setup_flex_table_id_columns .notTable t).warnings.length = 1 :=
  ⟨rfl, rfl, rfl, rfl, rfl, rfl⟩

/-- C2 counterexample: a table defined with `cluster = "auto"` and a
single text column - so no geometry column - is accepted by
`setup_flex_table` without any error; no geometry requirement is
enforced. -/
theorem cluster_auto_without_geom_accepted :
    def_cluster_auto_no_geom.cluster = .str "auto" ∧
    (setup_flex_table caps_probe_empty (.tbl def_cluster_auto_no_geom)
        [] true).err = none ∧
    (setup_flex_table caps_probe_empty (.tbl def_cluster_auto_no_geom)
        [] true).tables.length = 1 ∧
    ((setup_flex_table caps_probe_empty (.tbl def_cluster_auto_no_geom)
        [] true).tables.all
      (fun t => !t.has_geom_column && t.cluster_by_geom)) = true := by
  refine ⟨rfl, ?_, ?_, ?_⟩ <;> decide

/-- C2 amended: the "cluster" table option is validated only for its
value - "auto" and "no" are accepted (setting the cluster-by-geometry
flag), any other string is an error naming the value - with no check
against the table's columns; nil is ignored. -/
theorem cluster_option_checks_only_value (s : String) (t : flex_table_t) :
    setup_cluster_field (.str s) t =
      (if s = "auto" then ⟨{ t with cluster_by_geom := true }, none, []⟩
       else if s = "no" then ⟨{ t with cluster_by_geom := false }, none, []⟩
       else ⟨t, some ("Unknown value '" ++ s ++ "' for 'cluster' table" ++
                      " option (use 'auto' or 'no')."), []⟩) ∧
    setup_cluster_field .nil t = ⟨t, none, []⟩ := by
  constructor
  · by_cases h1 : s = "auto"
    · simp [setup_cluster_field, h1]
    · by_cases h2 : s = "no" <;> simp [setup_cluster_field, h1, h2]
  · rfl

/-- C3: a table definition whose name is that of an already existing
table is rejected by `create_flex_table` - and hence `setup_flex_table` -
with an error naming the table, whatever the rest of the definition
holds; the tables vector is left unchanged. -/
theorem duplicate_table_name_rejected (caps : Capabilities) (d : TableDef)
    (ts : List flex_table_t) (u : Bool) (s : String)
    (hname : d.name = .str s)
    (hvalid : valid_identifier s = true)
    (hdup : (find_by_name ts s).isSome = true) :
    setup_flex_table caps (.tbl d) ts u =
      ⟨ts, some ("Table with name '" ++ s ++ "' already exists."), []⟩ ∧
    create_flex_table caps d ts =
      ⟨ts, some ("Table with name '" ++ s ++ "' already exists."), []⟩ := by
  have hph : flex_table_name_phase d ts =
      .error ("Table with name '" ++ s ++ "' already exists.") := by
    simp [flex_table_name_phase, hname, luaX_get_table_string,
          check_identifier, hvalid, hdup]
  exact ⟨by simp [setup_flex_table, hph], by simp [create_flex_table, hph]⟩

/-- Witness for C3: a second definition named "pois" is rejected whatever
else it holds, with the vector unchanged. -/
theorem duplicate_table_name_rejected_witness :
    setup_flex_table caps_probe_empty
        (.tbl ({ name := .str "pois" } : TableDef))
        [{ name := "pois" }] true =
      ⟨[{ name := "pois" }],
       some "Table with name 'pois' already exists.", []⟩ ∧
    create_flex_table caps_probe_empty ({ name := .str "pois" } : TableDef)
        [{ name := "pois" }] =
      ⟨[{ name := "pois" }],
       some "Table with name 'pois' already exists.", []⟩ :=
  duplicate_table_name_rejected caps_probe_empty
    ({ name := .str "pois" } : TableDef) [{ name := "pois" }] true "pois"
    rfl (by decide) (by decide)

/-- C10: `setup_flex_table` is not atomic on error: once the name phase
has passed (string name, legal identifier, no duplicate), the new table is
in the returned tables vector - appended at the end, carrying the given
name - whether or not a later validation throws. -/
theorem setup_flex_table_appends_before_validation (caps : Capabilities)
    (d : TableDef) (ts : List flex_table_t) (u : Bool) (s : String)
    (hname : d.name = .str s)
    (hvalid : valid_identifier s = true)
    (hnodup : (find_by_name ts s).isSome = false) :
    ∃ t, (setup_flex_table caps (.tbl d) ts u).tables = ts ++ [t] ∧
      t.name = s := by
  have hph : flex_table_name_phase d ts = .ok s := by
    simp [flex_table_name_phase, hname, luaX_get_table_string,
          check_identifier, hvalid, hnodup]
  refine ⟨((create_flex_table_fields caps d { name := s }).andThen
             (setup_flex_table_id_columns d.ids) |>.andThen
             (setup_flex_table_columns d.columns) |>.andThen
             (fun t => setup_flex_table_indexes d.indexes t u)).table,
          ?_, ?_⟩
  · simp only [setup_flex_table, hph]
  · rw [name_andThen (fun t => name_setup_flex_table_indexes d.indexes t u),
        name_andThen (fun t => name_setup_flex_table_columns d.columns t),
        name_andThen (fun t => name_setup_flex_table_id_columns d.ids t),
        name_create_flex_table_fields]

/-- C1: every table definition accepted by `setup_flex_table` produces a
table with at least one column or an id column; a definition with zero
column entries and no id column is rejected by `setup_flex_table_columns`
with an error naming the table. -/
theorem accepted_table_has_column_or_id (caps : Capabilities)
    (arg : LuaArg) (ts : List flex_table_t) (u : Bool) :
    ((setup_flex_table caps arg ts u).err = none →
       ∃ t, (setup_flex_table caps arg ts u).tables = ts ++ [t] ∧
         (t.columns ≠ [] ∨ t.has_id_column = true)) ∧
    (∀ t : flex_table_t, t.has_id_column = false →
       setup_flex_table_columns (.arr []) t =
         ⟨t, some ("No columns defined for table '" ++ t.name ++ "'."),
          []⟩) := by
  constructor
  · intro h
    cases arg with
    | notTable => cases h
    | tbl d =>
        cases hph : flex_table_name_phase d ts with
        | error e => simp only [setup_flex_table, hph] at h; cases h
        | ok nm =>
            simp only [setup_flex_table, hph] at h ⊢
            obtain ⟨hABC, hD⟩ := TableStep.err_none_andThen h
            obtain ⟨hAB, hC⟩ := TableStep.err_none_andThen hABC
            refine ⟨_, rfl, ?_⟩
            rw [TableStep.table_andThen hABC, TableStep.table_andThen hAB]
            rcases setup_flex_table_columns_success hC with hne | hid
            · left
              rw [cols_setup_flex_table_indexes]
              exact hne
            · right
              exact (has_id_of_cols_eq
                (cols_setup_flex_table_indexes _ _ _)).trans hid
  · intro t ht
    simp [setup_flex_table_columns, setup_flex_columns_list,
          TableStep.andThen, ht]

/-- Witness for C1: the empty column array with no ids configuration is
rejected with an error naming the table. -/
theorem accepted_table_has_column_or_id_witness :
    setup_flex_table_columns (.arr []) table_p =
      ⟨table_p, some "No columns defined for table 'p'.", []⟩ :=
  (accepted_table_has_column_or_id caps_probe_empty .notTable [] true).2
    table_p rfl

/-- C7: a successfully processed "ids" table read a type among "node",
"way", "relation", "area" and "any"; it read a legal "id_column" name and
appended it as the last column, not-null of type id_num; its
"create_index" policy was "auto" (the default) or "always"; and for type
"any" with a string "type_column" the not-null id_type column is among
the table's columns. -/
theorem ids_configuration_accepted (d : IdsDef) (t : flex_table_t)
    (h : (setup_flex_table_id_columns (.tbl d) t).err = none) :
    (∃ ty, luaX_get_table_string d.type "type" "The ids field" = .ok ty ∧
       (ty = "node" ∨ ty = "way" ∨ ty = "relation" ∨ ty = "area" ∨
        ty = "any")) ∧
    (∃ nm, luaX_get_table_string d.id_column "id_column" "The ids field" =
         .ok nm ∧ valid_identifier nm = true ∧
       (setup_flex_table_id_columns (.tbl d) t).table.columns.getLast? =
         some { name := nm, ctype := .id_num, sql_type := "",
                not_null := true }) ∧
    (∃ ci, luaX_get_table_string_opt d.create_index "create_index"
         "The ids field" "auto" = .ok ci ∧ (ci = "auto" ∨ ci = "always")) ∧
    (∀ cn, luaX_get_table_string d.type "type" "The ids field" = .ok "any" →
       d.type_column = .str cn →
       ({ name := cn, ctype := .id_type, sql_type := "",
          not_null := true } : flex_table_column_t) ∈
         (setup_flex_table_id_columns (.tbl d) t).table.columns) := by
  cases hty : luaX_get_table_string d.type "type" "The ids field" with
  | error e =>
      rw [show setup_flex_table_id_columns (.tbl d) t = ⟨t, some e, []⟩ from
            by simp [setup_flex_table_id_columns, hty]] at h
      cases h
  | ok ty =>
      have hunf : setup_flex_table_id_columns (.tbl d) t =
          (setup_flex_table_ids_type ty d t).andThen
            (setup_flex_table_ids_rest d) := by
        simp [setup_flex_table_id_columns, hty]
      rw [hunf] at h
      obtain ⟨h1, h2⟩ := TableStep.err_none_andThen h
      obtain ⟨nm, ci, hnm, hv, hci, hcich, hcols⟩ := ids_rest_success h2
      refine ⟨⟨ty, rfl, ids_type_success h1⟩,
              ⟨nm, hnm, hv, ?_⟩, ⟨ci, hci, hcich⟩, ?_⟩
      · rw [hunf, TableStep.table_andThen h1, hcols, List.getLast?_concat]
      · intro cn hany htc
        injection hany with hta
        subst hta
        rw [hunf, TableStep.table_andThen h1, hcols,
            ids_type_any_cols htc h1]
        simp

/-- Witness for C7: an "any" ids configuration with a type column and an
"always" index policy is accepted, the id_num column is appended last and
the id_type column is present. -/
theorem ids_configuration_accepted_witness :
    (∃ ty, luaX_get_table_string ids_any_always.type "type"
         "The ids field" = .ok ty ∧
       (ty = "node" ∨ ty = "way" ∨ ty = "relation" ∨ ty = "area" ∨
        ty = "any")) ∧
    (∃ nm, luaX_get_table_string ids_any_always.id_column "id_column"
         "The ids field" = .ok nm ∧ valid_identifier nm = true ∧
       (setup_flex_table_id_columns (.tbl ids_any_always)
           table_p).table.columns.getLast? =
         some { name := nm, ctype := .id_num, sql_type := "",
                not_null := true }) ∧
    (∃ ci, luaX_get_table_string_opt ids_any_always.create_index
         "create_index" "The ids field" "auto" = .ok ci ∧
       (ci = "auto" ∨ ci = "always")) ∧
    (∀ cn, luaX_get_table_string ids_any_always.type "type"
         "The ids field" = .ok "any" →
       ids_any_always.type_column = .str cn →
       ({ name := cn, ctype := .id_type, sql_type := "",
          not_null := true } : flex_table_column_t) ∈
         (setup_flex_table_id_columns (.tbl ids_any_always)
            table_p).table.columns) :=
  ids_configuration_accepted ids_any_always table_p (by decide)

/-- C4: tablespaces and schemas named by a table definition are validated
against the capabilities probe at configuration time: a missing
tablespace or schema makes `setup_flex_table` throw an error naming the
identifier and the SQL statement (CREATE TABLESPACE / CREATE SCHEMA) that
would create it, while names that exist pass the checks and are recorded
on the table. -/
theorem tablespace_schema_validated :
    (∀ (caps : Capabilities) (s : String), has_tablespace caps s = false →
       check_tablespace caps s =
         .error ("Tablespace '" ++ s ++ "' not available." ++
                 " Use 'CREATE TABLESPACE \"" ++ s ++
                 "\" ...;' to create it.")) ∧
    (∀ (caps : Capabilities) (s : String), has_tablespace caps s = true →
       check_tablespace caps s = .ok ()) ∧
    (∀ (caps : Capabilities) (d : TableDef) (ts : List flex_table_t)
       (u : Bool) (nm s : String),
       d.name = .str nm → valid_identifier nm = true →
       (find_by_name ts nm).isSome = false →
       d.schema = .str s → valid_identifier s = true →
       has_schema caps s = false →
       (setup_flex_table caps (.tbl d) ts u).err =
         some ("Schema '" ++ s ++ "' not available." ++
               " Use 'CREATE SCHEMA \"" ++ s ++ "\";' to create it.")) ∧
    (∀ (caps : Capabilities) (d : TableDef) (ts : List flex_table_t)
       (u : Bool) (nm s : String),
       d.name = .str nm → valid_identifier nm = true →
       (find_by_name ts nm).isSome = false →
       d.schema = .nil → d.cluster = .nil →
       d.data_tablespace = .str s → valid_identifier s = true →
       has_tablespace caps s = false →
       (setup_flex_table caps (.tbl d) ts u).err =
         some ("Tablespace '" ++ s ++ "' not available." ++
               " Use 'CREATE TABLESPACE \"" ++ s ++
               "\" ...;' to create it.")) ∧
    (∀ (caps : Capabilities) (d : TableDef) (ts : List flex_table_t)
       (u : Bool) (nm s : String),
       d.name = .str nm → valid_identifier nm = true →
       (find_by_name ts nm).isSome = false →
       d.schema = .nil → d.cluster = .nil → d.data_tablespace = .nil →
       d.index_tablespace = .str s → valid_identifier s = true →
       has_tablespace caps s = false →
       (setup_flex_table caps (.tbl d) ts u).err =
         some ("Tablespace '" ++ s ++ "' not available." ++
               " Use 'CREATE TABLESPACE \"" ++ s ++
               "\" ...;' to create it.")) ∧
    (∀ (caps : Capabilities) (d : TableDef) (t : flex_table_t)
       (s1 s2 s3 : String),
       d.schema = .str s1 → valid_identifier s1 = true →
       has_schema caps s1 = true →
       d.cluster = .nil →
       d.data_tablespace = .str s2 → valid_identifier s2 = true →
       has_tablespace caps s2 = true →
       d.index_tablespace = .str s3 → valid_identifier s3 = true →
       has_tablespace caps s3 = true →
       create_flex_table_fields caps d t =
         ⟨{ t with schema := s1
                   data_tablespace := s2
                   index_tablespace := s3 }, none, []⟩) := by
  refine ⟨?_, ?_, ?_, ?_, ?_, ?_⟩
  · intro caps s hm
    simp [check_tablespace, hm]
  · intro caps s hm
    simp [check_tablespace, hm]
  · intro caps d ts u nm s h1 h2 h3 h4 h5 h6
    have hph : flex_table_name_phase d ts = .ok nm := by
      simp [flex_table_name_phase, h1, luaX_get_table_string,
            check_identifier, h2, h3]
    simp [setup_flex_table, hph, create_flex_table_fields,
          TableStep.andThen, setup_schema_field, h4, lua_isstring,
          lua_tostring, check_identifier, h5, h6]
  · intro caps d ts u nm s h1 h2 h3 h4 h5 h6 h7 h8
    have hph : flex_table_name_phase d ts = .ok nm := by
      simp [flex_table_name_phase, h1, luaX_get_table_string,
            check_identifier, h2, h3]
    simp [setup_flex_table, hph, create_flex_table_fields,
          TableStep.andThen, setup_schema_field, setup_cluster_field,
          setup_data_tablespace_field, h4, h5, h6, lua_isstring,
          lua_tostring, check_identifier, check_tablespace, h7, h8]
  · intro caps d ts u nm s h1 h2 h3 h4 h5 h6 h7 h8 h9
    have hph : flex_table_name_phase d ts = .ok nm := by
      simp [flex_table_name_phase, h1, luaX_get_table_string,
            check_identifier, h2, h3]
    simp [setup_flex_table, hph, create_flex_table_fields,
          TableStep.andThen, setup_schema_field, setup_cluster_field,
          setup_data_tablespace_field, setup_index_tablespace_field,
          h4, h5, h6, h7, lua_isstring, lua_tostring, check_identifier,
          check_tablespace, h8, h9]
  · intro caps d t s1 s2 s3 h1 h2 h3 h4 h5 h6 h7 h8 h9 h10
    simp [create_flex_table_fields, TableStep.andThen,
          setup_schema_field, setup_cluster_field,
          setup_data_tablespace_field, setup_index_tablespace_field,
          h1, h2, h3, h4, h5, h6, h7, h8, h9, h10, lua_isstring,
          lua_tostring, check_identifier, check_tablespace]

/-- Witness for C4: against a probe holding tablespace "main" and schema
"osm", a missing tablespace and a missing schema are rejected with the
CREATE statement in the message, and existing names pass and are
recorded. -/
theorem tablespace_schema_validated_witness :
    check_tablespace { tablespaces := ["main"] } "fast" =
      .error "Tablespace 'fast' not available. Use 'CREATE TABLESPACE \"fast\" ...;' to create it." ∧
    check_tablespace { tablespaces := ["main"] } "main" = .ok () ∧
    (setup_flex_table { schemas := ["osm"] }
        (.tbl { name := .str "t", schema := .str "missing" }) [] true).err =
      some "Schema 'missing' not available. Use 'CREATE SCHEMA \"missing\";' to create it." ∧
    create_flex_table_fields { tablespaces := ["sp"], schemas := ["osm"] }
        { name := .str "t"
          schema := .str "osm"
          data_tablespace := .str "sp"
          index_tablespace := .str "sp" }
        table_p =
      ⟨{ table_p with schema := "osm"
                      data_tablespace := "sp"
                      index_tablespace := "sp" }, none, []⟩ :=
  ⟨tablespace_schema_validated.1 { tablespaces := ["main"] } "fast"
     (by decide),
   tablespace_schema_validated.2.1 { tablespaces := ["main"] } "main"
     (by decide),
   tablespace_schema_validated.2.2.1 { schemas := ["osm"] }
     { name := .str "t", schema := .str "missing" } [] true "t" "missing"
     rfl (by decide) (by decide) rfl (by decide) (by decide),
   tablespace_schema_validated.2.2.2.2.2
     { tablespaces := ["sp"], schemas := ["osm"] }
     { name := .str "t"
       schema := .str "osm"
       data_tablespace := .str "sp"
       index_tablespace := .str "sp" }
     table_p "osm" "sp" "sp" rfl (by decide) (by decide) rfl rfl
     (by decide) (by decide) rfl (by decide) (by decide)⟩

/-- C5: a column entry carrying a "projection" attribute is accepted
exactly when the declared column type is a geometry type or area: then
the projection value is recorded on the new column; on any other type the
entry is rejected with an error and the projection is never set. -/
theorem projection_only_on_geometry_or_area (c : ColumnDef)
    (t : flex_table_t) (ty nm st : String) (cty : table_column_type)
    (nn co : Bool)
    (hty : luaX_get_table_string_opt c.type "type" "Column entry" "text" =
      .ok ty)
    (hnm : luaX_get_table_string c.column "column" "Column entry" = .ok nm)
    (hid : valid_identifier nm = true)
    (hst : luaX_get_table_string_opt c.sql_type "sql_type" "Column entry"
      "" = .ok st)
    (hct : parse_column_type ty = some cty)
    (hnn : luaX_get_table_bool c.not_null "not_null" "Entry 'not_null'"
      false = .ok nn)
    (hco : luaX_get_table_bool c.create_only "create_only"
      "Entry 'create_only'" false = .ok co)
    (hpr : c.projection ≠ .nil) :
    ((is_geometry_type cty || cty == .area) = true →
       setup_flex_column (.col c) t =
         ⟨{ t with columns := t.columns ++
              [{ name := nm
                 ctype := cty
                 sql_type := st
                 not_null := nn
                 create_only := co
                 projection := some (lua_tostring c.projection) }] },
          none, []⟩) ∧
    ((is_geometry_type cty || cty == .area) = false →
       setup_flex_column (.col c) t =
         ⟨{ t with columns := t.columns ++
              [{ name := nm
                 ctype := cty
                 sql_type := st
                 not_null := nn
                 create_only := co
                 projection := none }] },
          some "Projection can only be set on geometry and area columns.",
          []⟩) := by
  have hpn : lua_isnil c.projection = false := by
    cases hcp : c.projection
    · exact absurd hcp hpr
    all_goals rfl
  constructor <;> intro hgeom <;>
    simp [setup_flex_column, hty, hnm, hst, hnn, hco, check_identifier,
          hid, flex_table_t.add_column, hct, hpn,
          flex_table_t.modify_last_column, List.dropLast_concat,
          List.getLast?_concat, flex_table_column_t.is_geometry_column,
          hgeom]

/-- Witness for C5: a projection on a point column is accepted and
recorded; on a text column it is rejected and not set. -/
theorem projection_only_on_geometry_or_area_witness :
    (setup_flex_column (.col col_point_projected) table_p =
       ⟨{ table_p with columns :=
            [{ name := "geom"
               ctype := .point
               sql_type := ""
               not_null := false
               create_only := false
               projection := some "4326" }] }, none, []⟩) ∧
    (setup_flex_column
         (.col { column := .str "tags"
                 type := .str "text"
                 projection := .str "4326" }) table_p =
       ⟨{ table_p with columns :=
            [{ name := "tags"
               ctype := .text
               sql_type := ""
               not_null := false
               create_only := false
               projection := none }] },
        some "Projection can only be set on geometry and area columns.",
        []⟩) :=
  ⟨(projection_only_on_geometry_or_area col_point_projected table_p
      "point" "geom" "" .point false false rfl rfl (by decide) rfl
      (by decide) rfl rfl (by decide)).1 (by decide),
   (projection_only_on_geometry_or_area
      { column := .str "tags", type := .str "text",
        projection := .str "4326" } table_p
      "text" "tags" "" .text false false rfl rfl (by decide) rfl
      (by decide) rfl rfl (by decide)).2 (by decide)⟩

/-- Witness for C10: a definition with an invalid cluster value throws
after the append, and the partially constructed table named "houses" is
left in the vector. -/
theorem setup_flex_table_appends_before_validation_witness :
    (setup_flex_table caps_probe_empty (.tbl def_bad_cluster) [] true).err =
      some "Unknown value 'bogus' for 'cluster' table option (use 'auto' or 'no')." ∧
    ∃ t, (setup_flex_table caps_probe_empty (.tbl def_bad_cluster)
            [] true).tables = [] ++ [t] ∧ t.name = "houses" :=
  ⟨by decide,
   setup_flex_table_appends_before_validation caps_probe_empty
     def_bad_cluster [] true "houses" rfl (by decide) (by decide)⟩

end Osm2pgsql
